import Mathlib

/-!
# Verification of the `global-physics-standard` dashboard core

A shallow embedding of `src/app.py`: the value universe of the Python/YAML
data that flows through the script, the oracle fetch (`get_github_physics`),
the stubbed claim extraction (`simulate_pdd_extraction`), the GitHub sync
block, and the "Run Forensic PINN Audit" block, together with theorems about
them.  Numeric values are modelled as exact rationals; the HTTP world is
modelled as a function from request URLs to transport outcomes; UI output
(sidebar / banner text) is modelled as a list of emitted message strings.
-/

namespace GlobalPhysicsStandard

/-- The universe of Python values the script manipulates: `None`, booleans,
numbers (floats/ints modelled as exact rationals), strings, YAML sequences
and YAML mappings / Python dicts (association lists, first match wins). -/
inductive PyVal where
  | none
  | bool (b : Bool)
  | num (q : ℚ)
  | str (s : String)
  | list (xs : List PyVal)
  | dict (fields : List (String × PyVal))

/-- Python truthiness, as used by `if github_physics:` and
`if ... and pdd_file:` in the script. -/
def truthy : PyVal → Bool
  | .none => false
  | .bool b => b
  | .num q => q != 0
  | .str s => s != ""
  | .list xs => !xs.isEmpty
  | .dict fs => !fs.isEmpty

/-- The Python exceptions the audit block can raise: `KeyError` from a dict
subscript on a missing key, `TypeError` from subscripting a non-dict or from
arithmetic on non-numeric operands. -/
inductive PyErr where
  | keyError (key : String)
  | typeError
  deriving DecidableEq

/-- Association-list lookup backing dict subscripts. -/
def lookupField : List (String × PyVal) → String → Option PyVal
  | [], _ => Option.none
  | (k, v) :: rest, key => if k = key then some v else lookupField rest key

/-- Python `v[key]`: `KeyError` when the key is absent from a dict,
`TypeError` when `v` is not a dict at all. -/
def pyGet (v : PyVal) (key : String) : Except PyErr PyVal :=
  match v with
  | .dict fs =>
      match lookupField fs key with
      | some w => Except.ok w
      | Option.none => Except.error (PyErr.keyError key)
  | _ => Except.error PyErr.typeError

/-- Numeric view of a Python value, as required by `pdd_k - std_k` and
`abs`: numbers are numeric, and (as in Python) booleans count as 1/0;
everything else raises `TypeError` at the arithmetic. -/
def asNum : PyVal → Option ℚ
  | .num q => some q
  | .bool b => some (if b then 1 else 0)
  | _ => Option.none

/-! ## Configuration constants (src/app.py lines 12-24) -/

def GITHUB_USER : String := "dexdogs"

def REPO_NAME : String := "global-physics-standard"

def BRANCH : String := "main"

/-- The 17-sector registry excerpt hardcoded in the script. -/
def SECTORS : List (String × String) :=
  [("13", "Waste handling and disposal"),
   ("01", "Energy industries"),
   ("03", "Energy demand"),
   ("14", "Afforestation/Reforestation"),
   ("15", "Agriculture"),
   ("07", "Transport")]

/-! ## The oracle fetch (`get_github_physics`, lines 28-54) -/

/-- What `yaml.safe_load(response.text)` does on a given body: either it
returns a value (possibly Python `None`, e.g. for an empty document) or it
raises an exception carrying a message. -/
inductive ParseResult where
  | ok (v : PyVal)
  | raises (msg : String)

/-- The outcome of one `requests.get`: an HTTP response with a status code
and a body (represented by how it parses), or a raised connection
exception carrying a message. -/
inductive HttpOutcome where
  | response (status : ℕ) (body : ParseResult)
  | connectionFailure (msg : String)

def yaml_filename (sector_id : String) : String :=
  "sector_" ++ sector_id ++ "_waste.yaml"

def github_url (sector_id : String) : String :=
  "https://raw.githubusercontent.com/" ++ GITHUB_USER ++ "/" ++ REPO_NAME ++ "/" ++
    BRANCH ++ "/" ++ yaml_filename sector_id

/-- The actual request target: the raw URL with the `?t=<unix time>`
cache-busting query parameter appended (line 40). -/
def request_url (sector_id : String) (now : ℕ) : String :=
  github_url sector_id ++ "?t=" ++ Nat.repr now

/-- Lines 42-54: how one HTTP outcome is turned into the function's return
value (first component) and the sidebar diagnostics (second component).
A 200 response is passed to `yaml.safe_load`; a parse exception is caught
by the same broad `except` as a connection failure and reported as
`Connection Error`; 404 and other statuses return `None` with a status
message. -/
def fetch_result : HttpOutcome → PyVal × List String
  | .response 200 (.ok v) => (v, ["URL Status: 200 (Found)"])
  | .response 200 (.raises e) => (PyVal.none, ["Connection Error: " ++ e])
  | .response 404 _ =>
      (PyVal.none,
       ["URL Status: 404 (File Not Found)",
        "Check: 1. Username 2. Repo Name 3. Branch 4. Filename case sensitivity"])
  | .response s _ => (PyVal.none, ["URL Status: " ++ Nat.repr s])
  | .connectionFailure e => (PyVal.none, ["Connection Error: " ++ e])

/-- `get_github_physics(sector_id)`: builds the target URL, performs the
single GET against it (the world is `env`, the clock is `now`), and
classifies the outcome.  Returns the Python return value and the sidebar
messages emitted. -/
def get_github_physics (sector_id : String) (env : String → HttpOutcome)
    (now : ℕ) : PyVal × List String :=
  let url := github_url sector_id
  let r := fetch_result (env (request_url sector_id now))
  (r.1, ["Debug Terminal", "Target URL: " ++ url] ++ r.2)

/-! ## The claim extraction stub (`simulate_pdd_extraction`, lines 56-65) -/

/-- An uploaded file: only its presence and name are ever used. -/
structure UploadedFile where
  name : String

/-- The hardcoded record the stub returns. -/
def pdd_stub : PyVal :=
  PyVal.dict
    [("project_id", PyVal.str "VCS-2491"),
     ("extracted_k_value", PyVal.num 0.05),
     ("methodology", PyVal.str "ACM0001"),
     ("gas_density", PyVal.num 0.717)]

/-- `simulate_pdd_extraction(uploaded_file, sector_id)`: sleeps, then
returns the fixed dictionary; both arguments are ignored. -/
def simulate_pdd_extraction (uploaded_file : UploadedFile) (sector_id : String) :
    PyVal :=
  pdd_stub

/-! ## Session state and the sync block (lines 116-123) -/

/-- The slice of `st.session_state` the script uses: the single key
`physics`, holding the synced reference record when present.  The stored
value carries no sector identifier. -/
structure Session where
  physics : Option PyVal

/-- The "Sync with GitHub Live" button handler: fetch, then store the
result under `session_state['physics']` only when it is truthy; otherwise
leave the session untouched and point at the debug terminal.  (The success
branch additionally renders the required k-value; rendering is UI output
and carries no further state change.) -/
def sync_with_github (s : Session) (sector_id : String)
    (env : String → HttpOutcome) (now : ℕ) : Session × List String :=
  let r := get_github_physics sector_id env now
  if truthy r.1 then
    ({ s with physics := some r.1 }, r.2 ++ ["Science Standard Synced"])
  else
    (s, r.2 ++ ["Check Debug Terminal in Sidebar for details."])

/-! ## The audit block (lines 135-159) -/

/-- The two verdict banners: `MATCH` ("Physics Integrity: MATCH / PASS")
and `MISMATCH` ("Physics Integrity: FAIL / Violation"). -/
inductive Outcome where
  | MATCH
  | MISMATCH
  deriving DecidableEq

/-- What a completed audit displays: the methodology metric, the verdict,
and the two compared values (both are printed in the result banner). -/
structure AuditResult where
  methodology : PyVal
  outcome : Outcome
  pdd_k : ℚ
  std_k : ℚ

/-- The numeric comparison at line 148, with the tolerance as an explicit
parameter: `abs(pdd_k - std_k) < tolerance`.  Note the strict `<`. -/
def comparison_match (pdd_k std_k tolerance : ℚ) : Bool :=
  |pdd_k - std_k| < tolerance

/-- The tolerance the script inlines at line 148. -/
def AUDIT_TOLERANCE : ℚ := 0.001

/-- The body of the audit once both records are in hand (lines 138-154),
with Python's evaluation order: `pdd_data['extracted_k_value']`, then
`session_state['physics']['physics_standards']['methane_decay_k']`, then
`pdd_data['methodology']` (displayed as a metric), then the arithmetic
comparison (which raises `TypeError` unless both values are numeric). -/
def pinn_verdict (pdd_data physics : PyVal) : Except PyErr AuditResult :=
  match pyGet pdd_data "extracted_k_value" with
  | Except.error e => Except.error e
  | Except.ok pdd_kv =>
    match pyGet physics "physics_standards" with
    | Except.error e => Except.error e
    | Except.ok ps =>
      match pyGet ps "methane_decay_k" with
      | Except.error e => Except.error e
      | Except.ok std_kv =>
        match pyGet pdd_data "methodology" with
        | Except.error e => Except.error e
        | Except.ok methodology =>
          match asNum pdd_kv, asNum std_kv with
          | some pdd_k, some std_k =>
              if comparison_match pdd_k std_k AUDIT_TOLERANCE then
                Except.ok ⟨methodology, Outcome.MATCH, pdd_k, std_k⟩
              else
                Except.ok ⟨methodology, Outcome.MISMATCH, pdd_k, std_k⟩
          | _, _ => Except.error PyErr.typeError

/-- How the "Run Forensic PINN Audit" handler can fail: the guard at line
136 rejects the run when the session has no reference or no PDD was
uploaded ("Missing Data" banner), and any Python exception from the body
propagates. -/
inductive AuditError where
  | missingData
  | pyError (e : PyErr)
  deriving DecidableEq

/-- The audit button handler (lines 135-159): the guard
`'physics' in st.session_state and pdd_file`, then the verdict body.
`pdd_data` is the record produced by the extraction step for the uploaded
file; `sector_id` is the currently selected sector, which the block never
reads. -/
def run_audit (session : Session) (pdd_file : Option UploadedFile)
    (pdd_data : PyVal) (sector_id : String) : Except AuditError AuditResult :=
  match session.physics, pdd_file with
  | some physics, some _ => (pinn_verdict pdd_data physics).mapError AuditError.pyError
  | _, _ => Except.error AuditError.missingData

/-- A concrete remote world used in instantiations: every URL serves a 200
response whose body parses to a reference record with
`physics_standards.methane_decay_k = 0.05`. -/
def demo_env : String → HttpOutcome :=
  fun _ => HttpOutcome.response 200
    (ParseResult.ok (PyVal.dict
      [("physics_standards", PyVal.dict [("methane_decay_k", PyVal.num 0.05)])]))

/-! ## Decimal decoding, used to reason about the `?t=` cache buster -/

/-- Numeric value of a decimal digit character. -/
def digitVal (c : Char) : ℕ := c.toNat - 48

/-- Value of a most-significant-first decimal digit string. -/
def decToNat (cs : List Char) : ℕ := cs.foldl (fun a c => a * 10 + digitVal c) 0

/-! ## Helper lemmas -/

lemma str_eq_of_data_eq {s t : String} (h : s.data = t.data) : s = t := by
  cases s; cases t; simp only at h; rw [h]

lemma digitVal_digitChar : ∀ d, d < 10 → digitVal (Nat.digitChar d) = d := by decide

lemma toDigitsCore_shift : ∀ (f n : ℕ) (l : List Char), n < f →
    Nat.toDigitsCore 10 f n l = Nat.toDigitsCore 10 f n [] ++ l := by
  intro f
  induction f with
  | zero => intro n l h; omega
  | succ f ih =>
    intro n l h
    simp only [Nat.toDigitsCore]
    by_cases h10 : n / 10 = 0
    · simp [h10]
    · have hlt : n / 10 < f := by omega
      simp only [h10, if_false]
      rw [ih (n / 10) (Nat.digitChar (n % 10) :: l) hlt,
          ih (n / 10) [Nat.digitChar (n % 10)] hlt]
      simp

lemma toDigitsCore_fuel : ∀ (n f₁ f₂ : ℕ) (l : List Char), n < f₁ → n < f₂ →
    Nat.toDigitsCore 10 f₁ n l = Nat.toDigitsCore 10 f₂ n l := by
  intro n
  induction n using Nat.strong_induction_on with
  | _ n ih =>
    intro f₁ f₂ l h₁ h₂
    cases f₁ with
    | zero => omega
    | succ f₁ =>
      cases f₂ with
      | zero => omega
      | succ f₂ =>
        simp only [Nat.toDigitsCore]
        by_cases h10 : n / 10 = 0
        · simp [h10]
        · simp only [h10, if_false]
          exact ih (n / 10) (by omega) f₁ f₂ _ (by omega) (by omega)

lemma toDigits_lt (n : ℕ) (h : n < 10) : Nat.toDigits 10 n = [Nat.digitChar n] := by
  show Nat.toDigitsCore 10 (n + 1) n [] = _
  have h10 : n / 10 = 0 := by omega
  simp only [Nat.toDigitsCore, h10, if_true, Nat.mod_eq_of_lt h]

lemma toDigits_step (n : ℕ) (h : 10 ≤ n) :
    Nat.toDigits 10 n = Nat.toDigits 10 (n / 10) ++ [Nat.digitChar (n % 10)] := by
  have h10 : ¬ (n / 10 = 0) := by omega
  show Nat.toDigitsCore 10 (n + 1) n [] = _
  simp only [Nat.toDigitsCore, h10, if_false]
  rw [toDigitsCore_shift n (n / 10) _ (by omega),
      toDigitsCore_fuel (n / 10) n (n / 10 + 1) [] (by omega) (by omega)]
  rfl

lemma decToNat_concat (xs : List Char) (c : Char) :
    decToNat (xs ++ [c]) = decToNat xs * 10 + digitVal c := by
  simp [decToNat, List.foldl_append]

lemma decToNat_toDigits (n : ℕ) : decToNat (Nat.toDigits 10 n) = n := by
  induction n using Nat.strong_induction_on with
  | _ n ih =>
    by_cases h : n < 10
    · rw [toDigits_lt n h]
      show 0 * 10 + digitVal (Nat.digitChar n) = n
      rw [digitVal_digitChar n h]; omega
    · push_neg at h
      rw [toDigits_step n h, decToNat_concat, ih (n / 10) (by omega),
          digitVal_digitChar (n % 10) (by omega)]
      omega

lemma nat_repr_injective : Function.Injective Nat.repr := by
  intro m n h
  have hd : Nat.toDigits 10 m = Nat.toDigits 10 n := by
    have h2 := congrArg String.data h
    simpa [Nat.repr, List.asString] using h2
  have h3 := congrArg decToNat hd
  simpa [decToNat_toDigits] using h3

/-! ## C1: the numeric comparison policy -/

/-- C1, counterexample: the claim "MATCH iff `|a - b| ≤ t`" is false on the
code.  At `a = 0.001`, `b = 0`, `t = 0.001` (the script's own tolerance) the
difference is within tolerance under `≤`, yet the line-148 comparison
returns MISMATCH, because the script compares with strict `<`. -/
theorem C1_boundary_counterexample :
    (0 : ℚ) ≤ AUDIT_TOLERANCE ∧ |AUDIT_TOLERANCE - 0| ≤ AUDIT_TOLERANCE ∧
    comparison_match AUDIT_TOLERANCE 0 AUDIT_TOLERANCE = false := by
  refine ⟨by norm_num [AUDIT_TOLERANCE], ?_, ?_⟩
  · rw [sub_zero, abs_of_pos (show (0:ℚ) < AUDIT_TOLERANCE by norm_num [AUDIT_TOLERANCE])]
  · simp only [comparison_match, AUDIT_TOLERANCE, sub_zero, decide_eq_false_iff_not]
    rw [abs_of_pos (show (0:ℚ) < 0.001 by norm_num)]
    norm_num

/-- C1, amended: for every tolerance `t ≥ 0` and every pair of values
`a`, `b`, the comparison returns MATCH iff `|a - b| < t` — strictly below
tolerance; any difference not strictly within tolerance yields MISMATCH. -/
theorem C1_match_iff_strictly_within (t a b : ℚ) (ht : 0 ≤ t) :
    comparison_match a b t = true ↔ |a - b| < t := by
  simp [comparison_match]

/-- C1, witness for the amended theorem at `t = 0.001`, `a = b = 0`. -/
theorem C1_witness :
    (0 : ℚ) ≤ AUDIT_TOLERANCE ∧
    (comparison_match 0 0 AUDIT_TOLERANCE = true ↔ |(0 : ℚ) - 0| < AUDIT_TOLERANCE) :=
  ⟨by norm_num [AUDIT_TOLERANCE],
   C1_match_iff_strictly_within AUDIT_TOLERANCE 0 0 (by norm_num [AUDIT_TOLERANCE])⟩

/-! ## C2: no verdict without both records -/

/-- C2: when the session holds no reference record or no claim document was
uploaded, the audit handler fails fast with the "Missing Data" error and
never produces a verdict — in particular never a MATCH; equivalently, an
`ok` verdict forces both records to exist. -/
theorem C2_verdict_requires_both_records (session : Session)
    (pdd_file : Option UploadedFile) (pdd_data : PyVal) (sector_id : String)
    (h : session.physics = Option.none ∨ pdd_file = Option.none) :
    run_audit session pdd_file pdd_data sector_id =
      Except.error AuditError.missingData ∧
    ∀ r : AuditResult,
      run_audit session pdd_file pdd_data sector_id ≠ Except.ok r := by
  obtain ⟨p⟩ := session
  have hmd : run_audit ⟨p⟩ pdd_file pdd_data sector_id =
      Except.error AuditError.missingData := by
    rcases h with h | h
    · have hp : p = Option.none := h
      subst hp; cases pdd_file <;> rfl
    · subst h; cases p <;> rfl
  exact ⟨hmd, fun r hr => by rw [hmd] at hr; exact Except.noConfusion hr⟩

/-- C2, witness: the empty session with no uploaded file. -/
theorem C2_witness :
    ((Session.mk Option.none).physics = Option.none ∨
      (Option.none : Option UploadedFile) = Option.none) ∧
    (run_audit (Session.mk Option.none) Option.none pdd_stub "13" =
        Except.error AuditError.missingData ∧
      ∀ r : AuditResult,
        run_audit (Session.mk Option.none) Option.none pdd_stub "13" ≠
          Except.ok r) :=
  ⟨Or.inl rfl,
   C2_verdict_requires_both_records (Session.mk Option.none) Option.none pdd_stub
     "13" (Or.inl rfl)⟩

/-! ## C3: distinguishability of the fetch failures -/

/-- C3, counterexample: the claim is false on the code.  A 404 (NotFound),
a connection failure (NetworkError) and a parse exception on a 200 body
(ParseError) all return the very same value — Python `None` — to the
caller. -/
theorem C3_counterexample :
    (fetch_result (HttpOutcome.response 404 (ParseResult.ok (PyVal.dict [])))).1 =
      (fetch_result (HttpOutcome.connectionFailure "Connection refused")).1 ∧
    (fetch_result
        (HttpOutcome.response 200 (ParseResult.raises "while parsing a block mapping"))).1 =
      (fetch_result (HttpOutcome.connectionFailure "Connection refused")).1 ∧
    (fetch_result (HttpOutcome.response 404 (ParseResult.ok (PyVal.dict [])))).1 =
      PyVal.none :=
  ⟨rfl, rfl, rfl⟩

/-- C3, amended: all three failure outcomes are collapsed to the same
return value `None`; only the emitted diagnostics distinguish a 404 from a
raised exception, and a transport failure and a parse failure even share
the same `Connection Error` diagnostic shape. -/
theorem C3_failures_collapse_to_none (body : ParseResult) (e msg : String) :
    (fetch_result (HttpOutcome.response 404 body)).1 = PyVal.none ∧
    (fetch_result (HttpOutcome.connectionFailure msg)).1 = PyVal.none ∧
    (fetch_result (HttpOutcome.response 200 (ParseResult.raises e))).1 = PyVal.none ∧
    (fetch_result (HttpOutcome.response 404 body)).2 ≠
      (fetch_result (HttpOutcome.connectionFailure msg)).2 ∧
    (fetch_result (HttpOutcome.response 200 (ParseResult.raises e))).2 =
      ["Connection Error: " ++ e] := by
  refine ⟨?_, rfl, rfl, ?_, rfl⟩
  · cases body <;> rfl
  · cases body <;> simp [fetch_result]

/-! ## C4: absent audited fields -/

/-- C4: if the claim record lacks `extracted_k_value`, or the reference
record lacks `physics_standards.methane_decay_k`, the verifier fails with a
`KeyError` naming a missing field; it never produces a verdict (so never a
MATCH) and never substitutes zero. -/
theorem C4_missing_field_never_match :
    (∀ (fs : List (String × PyVal)) (physics : PyVal),
      lookupField fs "extracted_k_value" = Option.none →
        pinn_verdict (PyVal.dict fs) physics =
          Except.error (PyErr.keyError "extracted_k_value") ∧
        ∀ r : AuditResult, pinn_verdict (PyVal.dict fs) physics ≠ Except.ok r) ∧
    (∀ fs gs hs : List (String × PyVal),
      lookupField gs "physics_standards" = some (PyVal.dict hs) →
      lookupField hs "methane_decay_k" = Option.none →
        (∃ key, (key = "extracted_k_value" ∨ key = "methane_decay_k") ∧
          pinn_verdict (PyVal.dict fs) (PyVal.dict gs) =
            Except.error (PyErr.keyError key)) ∧
        ∀ r : AuditResult,
          pinn_verdict (PyVal.dict fs) (PyVal.dict gs) ≠ Except.ok r) := by
  constructor
  · intro fs physics h
    have he : pinn_verdict (PyVal.dict fs) physics =
        Except.error (PyErr.keyError "extracted_k_value") := by
      simp [pinn_verdict, pyGet, h]
    exact ⟨he, fun r hr => by rw [he] at hr; exact Except.noConfusion hr⟩
  · intro fs gs hs h₂ h₃
    have hkey : ∃ key, (key = "extracted_k_value" ∨ key = "methane_decay_k") ∧
        pinn_verdict (PyVal.dict fs) (PyVal.dict gs) =
          Except.error (PyErr.keyError key) := by
      cases h₁ : lookupField fs "extracted_k_value" with
      | none =>
          exact ⟨"extracted_k_value", Or.inl rfl, by simp [pinn_verdict, pyGet, h₁]⟩
      | some v =>
          exact ⟨"methane_decay_k", Or.inr rfl,
            by simp [pinn_verdict, pyGet, h₁, h₂, h₃]⟩
    obtain ⟨k, hk, he⟩ := hkey
    exact ⟨⟨k, hk, he⟩, fun r hr => by rw [he] at hr; exact Except.noConfusion hr⟩

/-- C4, witness: an empty claim record, and a reference whose
`physics_standards` mapping lacks `methane_decay_k`. -/
theorem C4_witness :
    (pinn_verdict (PyVal.dict []) (PyVal.dict []) =
        Except.error (PyErr.keyError "extracted_k_value") ∧
      ∀ r : AuditResult,
        pinn_verdict (PyVal.dict []) (PyVal.dict []) ≠ Except.ok r) ∧
    ((∃ key, (key = "extracted_k_value" ∨ key = "methane_decay_k") ∧
        pinn_verdict (PyVal.dict [("extracted_k_value", PyVal.num 0.05)])
          (PyVal.dict [("physics_standards", PyVal.dict [])]) =
          Except.error (PyErr.keyError key)) ∧
      ∀ r : AuditResult,
        pinn_verdict (PyVal.dict [("extracted_k_value", PyVal.num 0.05)])
          (PyVal.dict [("physics_standards", PyVal.dict [])]) ≠ Except.ok r) :=
  ⟨C4_missing_field_never_match.1 [] (PyVal.dict []) rfl,
   C4_missing_field_never_match.2 [("extracted_k_value", PyVal.num 0.05)]
     [("physics_standards", PyVal.dict [])] [] rfl rfl⟩

/-! ## C5: 200-but-unparsable bodies -/

/-- C5, counterexample: the claim is false on the code.  A 200 response
whose body parses to YAML null is returned as `None` through the success
path (with the success banner), and a 200 body that raises in the parser
returns `None` labelled as a `Connection Error` — there is no `ParseError`
result at all. -/
theorem C5_counterexample :
    fetch_result (HttpOutcome.response 200 (ParseResult.ok PyVal.none)) =
      (PyVal.none, ["URL Status: 200 (Found)"]) ∧
    fetch_result
        (HttpOutcome.response 200 (ParseResult.raises "while parsing a block mapping")) =
      (PyVal.none, ["Connection Error: while parsing a block mapping"]) :=
  ⟨rfl, rfl⟩

/-- C5, amended: on a 200 response the fetch returns whatever
`yaml.safe_load` produces — including `None` — as a success, and when the
parse raises it returns `None` with the generic `Connection Error`
diagnostic; no dedicated `ParseError` result exists. -/
theorem C5_parse_failure_returns_none (e : String) (v : PyVal) :
    fetch_result (HttpOutcome.response 200 (ParseResult.raises e)) =
      (PyVal.none, ["Connection Error: " ++ e]) ∧
    fetch_result (HttpOutcome.response 200 (ParseResult.ok v)) =
      (v, ["URL Status: 200 (Found)"]) :=
  ⟨rfl, rfl⟩

/-! ## C6: a 404 leaves the session reference state unchanged -/

/-- C6: when the request target answers HTTP 404, the fetch returns `None`
with the `404 (File Not Found)` diagnostic, and the sync handler leaves the
whole session — in particular its reference state — exactly as it was. -/
theorem C6_notfound_leaves_session (s : Session) (sector_id : String)
    (env : String → HttpOutcome) (now : ℕ) (body : ParseResult)
    (h : env (request_url sector_id now) = HttpOutcome.response 404 body) :
    (get_github_physics sector_id env now).1 = PyVal.none ∧
    "URL Status: 404 (File Not Found)" ∈ (get_github_physics sector_id env now).2 ∧
    (sync_with_github s sector_id env now).1 = s := by
  have hf : fetch_result (HttpOutcome.response 404 body) =
      (PyVal.none,
       ["URL Status: 404 (File Not Found)",
        "Check: 1. Username 2. Repo Name 3. Branch 4. Filename case sensitivity"]) := by
    cases body <;> rfl
  refine ⟨?_, ?_, ?_⟩
  · simp [get_github_physics, h, hf]
  · simp [get_github_physics, h, hf]
  · simp [sync_with_github, get_github_physics, h, hf, truthy]

/-- C6, witness: an empty session and a world that answers 404 everywhere. -/
theorem C6_witness :
    (get_github_physics "13"
        (fun _ => HttpOutcome.response 404 (ParseResult.ok PyVal.none)) 0).1 =
      PyVal.none ∧
    "URL Status: 404 (File Not Found)" ∈
      (get_github_physics "13"
        (fun _ => HttpOutcome.response 404 (ParseResult.ok PyVal.none)) 0).2 ∧
    (sync_with_github (Session.mk Option.none) "13"
        (fun _ => HttpOutcome.response 404 (ParseResult.ok PyVal.none)) 0).1 =
      Session.mk Option.none :=
  C6_notfound_leaves_session (Session.mk Option.none) "13"
    (fun _ => HttpOutcome.response 404 (ParseResult.ok PyVal.none)) 0
    (ParseResult.ok PyVal.none) rfl

/-! ## C7: the 0.05 vs 0.045 scenario -/

/-- C7: for any claim record whose `extracted_k_value` is `0.045` and any
reference record whose `physics_standards.methane_decay_k` is `0.05`, the
audit completes with a MISMATCH verdict reporting both values, whose
absolute difference is `0.005` — beyond the `0.001` tolerance. -/
theorem C7_scenario_mismatch (fs gs hs : List (String × PyVal)) (m : PyVal)
    (h₁ : lookupField fs "extracted_k_value" = some (PyVal.num 0.045))
    (h₂ : lookupField fs "methodology" = some m)
    (h₃ : lookupField gs "physics_standards" = some (PyVal.dict hs))
    (h₄ : lookupField hs "methane_decay_k" = some (PyVal.num 0.05)) :
    pinn_verdict (PyVal.dict fs) (PyVal.dict gs) =
      Except.ok ⟨m, Outcome.MISMATCH, 0.045, 0.05⟩ ∧
    |(0.045 : ℚ) - 0.05| = 0.005 := by
  have habs : |(0.045 : ℚ) - 0.05| = 0.005 := by
    have h5 : (0.045 : ℚ) - 0.05 = -(0.005) := by norm_num
    rw [h5, abs_neg, abs_of_pos (by norm_num)]
  have hcmp : comparison_match 0.045 0.05 AUDIT_TOLERANCE = false := by
    simp only [comparison_match, AUDIT_TOLERANCE, decide_eq_false_iff_not, habs]
    norm_num
  refine ⟨?_, habs⟩
  simp [pinn_verdict, pyGet, h₁, h₂, h₃, h₄, asNum, hcmp]

/-- C7, witness: the stub-shaped records of the scenario. -/
theorem C7_witness :
    pinn_verdict
        (PyVal.dict
          [("extracted_k_value", PyVal.num 0.045),
           ("methodology", PyVal.str "ACM0001")])
        (PyVal.dict
          [("physics_standards",
            PyVal.dict [("methane_decay_k", PyVal.num 0.05)])]) =
      Except.ok ⟨PyVal.str "ACM0001", Outcome.MISMATCH, 0.045, 0.05⟩ ∧
    |(0.045 : ℚ) - 0.05| = 0.005 :=
  C7_scenario_mismatch
    [("extracted_k_value", PyVal.num 0.045), ("methodology", PyVal.str "ACM0001")]
    [("physics_standards", PyVal.dict [("methane_decay_k", PyVal.num 0.05)])]
    [("methane_decay_k", PyVal.num 0.05)]
    (PyVal.str "ACM0001") rfl rfl rfl rfl

/-! ## C8: request target, cache buster, single attempt -/

/-- C8: the request target has the form
`https://raw.githubusercontent.com/<owner>/<repo>/<branch>/sector_<id>_waste.yaml?t=<unix time>`;
distinct timestamps give distinct targets (the `t` parameter uniquifies the
request, defeating caches); and one invocation performs a single attempt:
its entire behaviour depends only on the world's answer at that one target
URL. -/
theorem C8_request_form_and_single_attempt (sector_id : String)
    (env₁ env₂ : String → HttpOutcome) (now n₁ n₂ : ℕ) (hne : n₁ ≠ n₂)
    (henv : env₁ (request_url sector_id now) = env₂ (request_url sector_id now)) :
    request_url sector_id now =
      "https://raw.githubusercontent.com/" ++ GITHUB_USER ++ "/" ++ REPO_NAME ++
        "/" ++ BRANCH ++ "/sector_" ++ sector_id ++ "_waste.yaml" ++ "?t=" ++
        Nat.repr now ∧
    request_url sector_id n₁ ≠ request_url sector_id n₂ ∧
    get_github_physics sector_id env₁ now = get_github_physics sector_id env₂ now := by
  refine ⟨?_, ?_, ?_⟩
  · have hsplit : ("/sector_" : String) = "/" ++ "sector_" := rfl
    rw [hsplit]
    simp only [request_url, github_url, yaml_filename, String.append_assoc]
  · intro hcontra
    apply hne
    apply nat_repr_injective
    have hd := congrArg String.data hcontra
    simp only [request_url, String.data_append, List.append_assoc] at hd
    exact str_eq_of_data_eq (List.append_cancel_left (List.append_cancel_left hd))
  · simp [get_github_physics, henv]

/-- C8, witness: sector 13, timestamps 0 and 1, one constant world. -/
theorem C8_witness :
    (0 : ℕ) ≠ 1 ∧
    (request_url "13" 0 =
      "https://raw.githubusercontent.com/" ++ GITHUB_USER ++ "/" ++ REPO_NAME ++
        "/" ++ BRANCH ++ "/sector_" ++ "13" ++ "_waste.yaml" ++ "?t=" ++
        Nat.repr 0 ∧
    request_url "13" 0 ≠ request_url "13" 1 ∧
    get_github_physics "13" (fun _ => HttpOutcome.connectionFailure "refused") 0 =
      get_github_physics "13" (fun _ => HttpOutcome.connectionFailure "refused") 0) :=
  ⟨by decide,
   C8_request_form_and_single_attempt "13"
     (fun _ => HttpOutcome.connectionFailure "refused")
     (fun _ => HttpOutcome.connectionFailure "refused") 0 0 1 (by decide) rfl⟩

/-! ## C9: the extraction stub is a constant -/

/-- C9: the claim extraction is deterministic and input-independent: for
any two invocations, with any uploaded documents and sector ids, it
returns the same record — the hardcoded stub with project id `VCS-2491`,
`extracted_k_value = 0.05`, methodology `ACM0001` and gas density
`0.717`. -/
theorem C9_extraction_is_constant (f₁ f₂ : UploadedFile) (s₁ s₂ : String) :
    simulate_pdd_extraction f₁ s₁ = simulate_pdd_extraction f₂ s₂ ∧
    simulate_pdd_extraction f₁ s₁ = pdd_stub :=
  ⟨rfl, rfl⟩

/-! ## C10: the stored reference is not keyed by sector -/

/-- C10: the sync stores the fetched reference in the session's single
`physics` slot, with no sector attached; the audit handler reads that slot
and never its `sector_id` argument, so after syncing for one sector and
then selecting another, the audit compares the claim against the reference
stored for the first sector. -/
theorem C10_reference_unkeyed_by_sector (s₀ : Session) (env : String → HttpOutcome)
    (now : ℕ) (sid₁ sid₂ : String) (pdd_file : Option UploadedFile) (pdd_data : PyVal)
    (h : truthy (get_github_physics sid₁ env now).1 = true) :
    ((sync_with_github s₀ sid₁ env now).1).physics =
      some (get_github_physics sid₁ env now).1 ∧
    run_audit (sync_with_github s₀ sid₁ env now).1 pdd_file pdd_data sid₂ =
      run_audit (sync_with_github s₀ sid₁ env now).1 pdd_file pdd_data sid₁ := by
  constructor
  · simp [sync_with_github, h]
  · rfl

/-- C10, witness: sync for sector 13 against `demo_env`, then audit with
sector 01 selected. -/
theorem C10_witness :
    ((sync_with_github (Session.mk Option.none) "13" demo_env 0).1).physics =
      some (get_github_physics "13" demo_env 0).1 ∧
    run_audit (sync_with_github (Session.mk Option.none) "13" demo_env 0).1
        (some (UploadedFile.mk "pdd.pdf")) pdd_stub "01" =
      run_audit (sync_with_github (Session.mk Option.none) "13" demo_env 0).1
        (some (UploadedFile.mk "pdd.pdf")) pdd_stub "13" :=
  C10_reference_unkeyed_by_sector (Session.mk Option.none) demo_env 0 "13" "01"
    (some (UploadedFile.mk "pdd.pdf")) pdd_stub rfl

end GlobalPhysicsStandard
